import Mathlib

/-!
Verification of the Chucky n8n node (`src/credentials/ChuckyApi.credentials.ts`).

The development shallowly embeds the `createJob` / `cancelJob` pipeline:
the job-request builder (model selection, idempotency key, tools and
output-format parsing, optional numeric fields), the incubate-response
interpretation, the completion poller with its timeout policy, and the
result normalizer that flattens a terminal job record.

JavaScript-specific behaviour is modelled explicitly:
- optional values are `Option`; a JS truthiness test `if (x)` on an
  optional string becomes "is `some s` with `s` nonempty", on an optional
  number "is `some n` with `n` nonzero";
- `JSON.parse` is an external platform builtin, so it is a parameter
  (`jp : String → Option Json`): `none` models a parse exception;
- real time and network I/O are abstracted: the k-th status fetch of the
  poll loop reads `source k`, and the loop emits a trace of events
  (fetch / sleep / cancel request) so that cadence claims are statable.
-/

namespace Chucky

/-- JSON values (JS numbers restricted to integers; no claim computes
with them, they are only carried through). -/
inductive Json where
  | null
  | bool (b : Bool)
  | num (n : Int)
  | str (s : String)
  | arr (xs : List Json)
  | obj (fields : List (String × Json))

/-- JS truthiness of a value (`if (x)`): `null`, `false`, `0`, `""` are
falsy; every object and array is truthy. -/
def jsTruthy : Json → Bool
  | .null => false
  | .bool b => b
  | .num n => n != 0
  | .str s => s != ""
  | .arr _ => true
  | .obj _ => true

/-- The JS test `typeof x === "object"` for a JSON value: objects, arrays and `null`. -/
def jsTypeofObject : Json → Bool
  | .obj _ => true
  | .arr _ => true
  | .null => true
  | _ => false

/-- Value of `Object.keys(x).length` for a JSON value: own enumerable keys of an
object, indices of an array, none for primitives. -/
def jsKeysLength : Json → Nat
  | .obj fields => fields.length
  | .arr xs => xs.length
  | _ => 0

/-- JS truthiness of an optional string (`if (x)` where `x : string `
`| undefined`): defined and nonempty. -/
def jsStrTruthy : Option String → Bool
  | none => false
  | some s => s != ""

/-- JS truthiness of an optional number: defined and nonzero. -/
def jsNumTruthy : Option Int → Bool
  | none => false
  | some n => n != 0

/-- The JS expression `x || d` for an optional string `x` and default `d`. -/
def jsStrOr (x : Option String) (d : String) : String :=
  match x with
  | none => d
  | some s => if s = "" then d else s

/-- The JS expression `x || d` for an optional number `x` and default `d`. -/
def jsNumOr (x : Option Nat) (d : Nat) : Nat :=
  match x with
  | none => d
  | some n => if n = 0 then d else n

/-! ### Data model (`Job`, `IncubateOutput`, `SDKResult`, responses) -/

/-- Token `usage` statistics of an SDK result. -/
structure Usage where
  input_tokens : Int
  output_tokens : Int

/-- The `subtype` discriminator of an SDK result. -/
inductive SDKSubtype where
  | success
  | error_max_turns
  | error_during_execution
  | error_max_budget_usd
  | error_max_structured_output_retries

/-- Record `SDKResult`: the richer agent-produced payload. `structured_output`
is `unknown` in the source, so any JSON value (including falsy ones);
`some v` means the field is defined (`!== undefined`). -/
structure SDKResult where
  subtype : SDKSubtype
  result : Option String
  structured_output : Option Json
  total_cost_usd : Option Int
  usage : Option Usage

/-- Record `IncubateOutput`: the output attached to a job record. -/
structure IncubateOutput where
  success : Bool
  text : Option String
  result : Option SDKResult
  error : Option String

/-- The `error` field of a job record. -/
structure JobError where
  message : String
  name : Option String

/-- Record `Job`: the remote job record as returned by `POST /api/jobs/get`. -/
structure Job where
  id : String
  status : String
  taskIdentifier : String
  createdAt : String
  updatedAt : String
  startedAt : Option String
  finishedAt : Option String
  isCompleted : Bool
  isSuccess : Bool
  isFailed : Bool
  output : Option IncubateOutput
  error : Option JobError

/-- Record `IncubateResponse`: the synchronous response of `POST /incubate`. -/
structure IncubateResponse where
  vesselId : String
  idempotencyKey : String
  status : String
  scheduledFor : Option String
  error : Option String
  message : Option String

/-! ### Job request builder (`createJob`, lines 763-853) -/

/-- The four random bytes drawn by `crypto.randomBytes(4)`. -/
abbrev RandBytes : Type := Fin 256 × Fin 256 × Fin 256 × Fin 256

/-- Lower-case hex digit of a value below 16 (the `Buffer.toString("hex")`
digit alphabet). -/
def hexDigit (n : Nat) : Char :=
  if n = 0 then '0' else if n = 1 then '1' else if n = 2 then '2'
  else if n = 3 then '3' else if n = 4 then '4' else if n = 5 then '5'
  else if n = 6 then '6' else if n = 7 then '7' else if n = 8 then '8'
  else if n = 9 then '9' else if n = 10 then 'a' else if n = 11 then 'b'
  else if n = 12 then 'c' else if n = 13 then 'd' else if n = 14 then 'e'
  else 'f'

/-- Two hex digits of one byte. -/
def byteHex (b : Fin 256) : List Char :=
  [hexDigit (b.val / 16), hexDigit (b.val % 16)]

/-- Value of `crypto.randomBytes(4).toString("hex")`. -/
def bytesToHex (r : RandBytes) : String :=
  String.mk (byteHex r.1 ++ byteHex r.2.1 ++ byteHex r.2.2.1 ++ byteHex r.2.2.2)

/-- The generated idempotency key:
`n8n-` + `Date.now()` + `-` + the random hex
(`now` is the current time in milliseconds). -/
def genIdempotencyKey (now : Nat) (r : RandBytes) : String :=
  "n8n-" ++ toString now ++ "-" ++ bytesToHex r

/-- Line 777: `advancedOptions.idempotencyKey || <generated key>`. -/
def chooseIdempotencyKey (supplied : Option String) (now : Nat) (r : RandBytes) : String :=
  match supplied with
  | none => genIdempotencyKey now r
  | some s => if s = "" then genIdempotencyKey now r else s

/-- Lines 780-783: model selection with the `custom` sentinel. -/
def chooseModel (model customModel : Option String) : String :=
  let m := jsStrOr model "claude-sonnet-4-5-20250929"
  if m = "custom" && jsStrTruthy customModel then
    match customModel with
    | some c => c
    | none => m
  else m

/-- Value of `s.split(",").map((t) => t.trim())`. -/
def splitTrim (s : String) : List String :=
  (s.splitOn ",").map (fun t => t.trim)

/-- Lines 786-793: the `tools` option. If the string is truthy, try
`JSON.parse` (the platform builtin, abstracted as `jp`); on a parse
exception fall back to comma-splitting and trimming. -/
def toolsField (jp : String → Option Json) (tools : Option String) : Option Json :=
  match tools with
  | none => none
  | some s =>
    if s = "" then none
    else
      match jp s with
      | some v => some v
      | none => some (Json.arr ((splitTrim s).map Json.str))

/-- Lines 796-812: `parsedOutputFormat`. The n8n JSON field may return a
string or an object, modelled as an arbitrary JSON value. A string is
parsed leniently (invalid JSON ignored); a parsed primitive or `null` is
ignored; a non-string object-typed value is used as is. -/
def parsedOutputFormat (jp : String → Option Json) (input : Option Json) : Option Json :=
  match input with
  | none => none
  | some v =>
    if jsTruthy v then
      match v with
      | .str s =>
        match jp s with
        | some parsed =>
          if jsTruthy parsed && jsTypeofObject parsed then some parsed else none
        | none => none
      | other => if jsTypeofObject other then some other else none
    else none

/-- Lines 823-828: the `outputFormat` request field, included only for a
defined, non-empty parsed object and wrapped as a `json_schema` schema. -/
def outputFormatField (jp : String → Option Json) (input : Option Json) : Option Json :=
  match parsedOutputFormat jp input with
  | none => none
  | some p =>
    if jsKeysLength p > 0 then
      some (Json.obj [("type", Json.str "json_schema"), ("schema", p)])
    else none

/-- A truthiness-gated string field: `...(x && { k: f(x) })`. -/
def strGatedField {α : Type} (x : Option String) (f : String → α) : Option α :=
  match x with
  | none => none
  | some s => if s = "" then none else some (f s)

/-- Line 822: `...(modelOptions.maxTurns && { maxTurns })`. -/
def maxTurnsField (maxTurns : Option Int) : Option Int :=
  match maxTurns with
  | none => none
  | some n => if n = 0 then none else some n

/-- Lines 844-846: `if (advancedOptions.ttl && advancedOptions.ttl > 0)`. -/
def ttlField (ttl : Option Int) : Option Int :=
  match ttl with
  | none => none
  | some n => if n != 0 && n > 0 then some n else none

/-- Lines 836-840: `permissionMode` is transmitted only when truthy and
different from `default`. -/
def permissionModeField (mode : Option String) : Option String :=
  match mode with
  | none => none
  | some m => if m != "" && m != "default" then some m else none

/-- Lines 836-840: `allowDangerouslySkipPermissions`, spread together
with `permissionMode`. -/
def skipPermissionsField (mode : Option String) : Option Bool :=
  match mode with
  | none => none
  | some m => if m != "" && m != "default" then some (m = "bypassPermissions") else none

/-- The `callback` body field (lines 848-853). -/
structure Callback where
  url : String
  secret : Option String

/-- Lines 848-853: callback present only when a URL was supplied. -/
def callbackField (url secret : Option String) : Option Callback :=
  match url with
  | none => none
  | some u =>
    if u = "" then none
    else some { url := u, secret := strGatedField secret (fun s => s) }

/-- The `options` object of the request body (lines 818-841). -/
structure JobOptions where
  token : String
  model : String
  systemPrompt : Option String
  maxTurns : Option Int
  outputFormat : Option Json
  tools : Option Json
  allowedTools : Option (List String)
  disallowedTools : Option (List String)
  permissionMode : Option String
  allowDangerouslySkipPermissions : Option Bool

/-- The full request body posted to `/incubate` (lines 815-853). -/
structure JobBody where
  message : String
  idempotencyKey : String
  options : JobOptions
  ttl : Option Int
  callback : Option Callback

/-- Raw builder inputs, as read from the node parameters. -/
structure BuildParams where
  message : String
  idempotencyKey : Option String
  model : Option String
  customModel : Option String
  systemPrompt : Option String
  maxTurns : Option Int
  outputFormat : Option Json
  tools : Option String
  allowedTools : Option String
  disallowedTools : Option String
  permissionMode : Option String
  ttl : Option Int
  callbackUrl : Option String
  callbackSecret : Option String

/-- Lines 777-853 of `createJob`: assemble the outbound request body.
`token` is the externally minted signed token, `now` the current time in
milliseconds, `r` the four random bytes. -/
def buildBody (jp : String → Option Json) (p : BuildParams) (token : String)
    (now : Nat) (r : RandBytes) : JobBody :=
  { message := p.message
    idempotencyKey := chooseIdempotencyKey p.idempotencyKey now r
    options :=
      { token := token
        model := chooseModel p.model p.customModel
        systemPrompt := strGatedField p.systemPrompt (fun s => s)
        maxTurns := maxTurnsField p.maxTurns
        outputFormat := outputFormatField jp p.outputFormat
        tools := toolsField jp p.tools
        allowedTools := strGatedField p.allowedTools splitTrim
        disallowedTools := strGatedField p.disallowedTools splitTrim
        permissionMode := permissionModeField p.permissionMode
        allowDangerouslySkipPermissions := skipPermissionsField p.permissionMode }
    ttl := ttlField p.ttl
    callback := callbackField p.callbackUrl p.callbackSecret }

/-! ### Incubate response interpretation (lines 856-880) -/

/-- The fields extracted from an accepted submission (lines 873-880). -/
structure SubmitAccepted where
  jobId : String
  idempotencyKey : String
  status : String
  scheduledFor : Option String

/-- Lines 865-880: a response carrying a truthy `error` or `message`
field raises a `NodeOperationError` with
`data.message || data.error || "Failed to create job"`; otherwise the
accepted-submission fields are extracted. -/
def interpretIncubate (resp : IncubateResponse) : Except String SubmitAccepted :=
  if jsStrTruthy resp.error || jsStrTruthy resp.message then
    Except.error (jsStrOr resp.message (jsStrOr resp.error "Failed to create job"))
  else
    Except.ok
      { jobId := resp.vesselId
        idempotencyKey := resp.idempotencyKey
        status := resp.status
        scheduledFor := resp.scheduledFor }

/-! ### Result normalizer (lines 890-926) -/

/-- The flat result record built when a completed job is observed.
A field of type `Option α` is `some` exactly when the corresponding key
is assigned; nested options keep the distinction between an assigned key
holding JS `undefined` and an unassigned key. -/
structure FlatResult where
  jobId : String
  status : String
  isSuccess : Bool
  isFailed : Bool
  createdAt : String
  updatedAt : String
  startedAt : Option String
  finishedAt : Option String
  success : Option Bool
  text : Option (Option String)
  error : Option (Option String)
  resultSubtype : Option SDKSubtype
  resultText : Option (Option String)
  totalCostUsd : Option (Option Int)
  usage : Option (Option Usage)
  structuredOutput : Option Json
  rawOutput : Option IncubateOutput

/-- Lines 890-926: flatten a job record. Output fields are lifted only
when `output` is present, SDK-result fields only when `output.result`
is present, and `structuredOutput` only when
`output.result.structured_output !== undefined`. -/
def flattenJob (job : Job) : FlatResult :=
  let base : FlatResult :=
    { jobId := job.id
      status := job.status
      isSuccess := job.isSuccess
      isFailed := job.isFailed
      createdAt := job.createdAt
      updatedAt := job.updatedAt
      startedAt := job.startedAt
      finishedAt := job.finishedAt
      success := none
      text := none
      error := none
      resultSubtype := none
      resultText := none
      totalCostUsd := none
      usage := none
      structuredOutput := none
      rawOutput := none }
  let withOutput : FlatResult :=
    match job.output with
    | none => base
    | some o =>
      let r1 := { base with
        success := some o.success
        text := some o.text
        error := some o.error }
      match o.result with
      | none => r1
      | some sdk =>
        let r2 := { r1 with
          resultSubtype := some sdk.subtype
          resultText := some sdk.result
          totalCostUsd := some sdk.total_cost_usd
          usage := some sdk.usage }
        match sdk.structured_output with
        | none => r2
        | some v => { r2 with structuredOutput := some v }
  { withOutput with rawOutput := job.output }

/-! ### Completion poller (lines 883-936) -/

/-- Observable actions of the client: the k-th status fetch
(`getJob`), a `setTimeout` suspension of `ms` milliseconds, and a
cancel request (`POST /api/jobs/cancel`). -/
inductive Event where
  | fetch (k : Nat)
  | sleep (ms : Nat)
  | cancelReq (jobId : String)
deriving DecidableEq

/-- Record `pollingOptions` as configured by the caller; `none` models an
omitted option. -/
structure PollConfig where
  pollingInterval : Option Nat
  timeout : Option Nat

/-- Line 883: `(pollingOptions.pollingInterval || 5) * 1000`. -/
def cfgIntervalMs (cfg : PollConfig) : Nat :=
  jsNumOr cfg.pollingInterval 5 * 1000

/-- Line 884: `(pollingOptions.timeout || 600) * 1000`. -/
def cfgTimeoutMs (cfg : PollConfig) : Nat :=
  jsNumOr cfg.timeout 600 * 1000

/-- Lines 887-931: the poll loop. `source k` is the job record returned
by the k-th `getJob` fetch; `elapsed` is the wall-clock time since
polling began (fetches are instantaneous in this model, so time advances
only across the `setTimeout` suspension). Returns the emitted event
trace and the completed job record, or `none` when the loop exits by
timeout. -/
def pollLoop (source : Nat → Job) (cfg : PollConfig) (k elapsed : Nat) :
    List Event × Option Job :=
  if elapsed < cfgTimeoutMs cfg then
    let job := source k
    if job.isCompleted then
      ([Event.fetch k], some job)
    else
      let rest := pollLoop source cfg (k + 1) (elapsed + cfgIntervalMs cfg)
      (Event.fetch k :: Event.sleep (cfgIntervalMs cfg) :: rest.1, rest.2)
  else
    ([], none)
termination_by cfgTimeoutMs cfg - elapsed
decreasing_by
  have hpos : 0 < cfgIntervalMs cfg := by
    unfold cfgIntervalMs jsNumOr
    cases cfg.pollingInterval with
    | none => decide
    | some n =>
      by_cases hn : n = 0
      · simp [hn]
      · simp only [if_neg hn]
        omega
  omega

/-- Lines 933-936: the timeout error message,
`` `Job ${id} did not complete within ${pollingOptions.timeout || 600} seconds` ``. -/
def timeoutMessage (jobId : String) (timeoutSecs : Nat) : String :=
  "Job " ++ jobId ++ " did not complete within " ++ toString timeoutSecs ++ " seconds"

/-- The wait-for-completion phase of `createJob` (lines 882-936): poll
from time 0, flatten the observed completed job, or fail with the
timeout error. Returns the event trace alongside the outcome. -/
def createJobWait (source : Nat → Job) (cfg : PollConfig) (jobId : String) :
    List Event × Except String FlatResult :=
  ((pollLoop source cfg 0 0).1,
    match (pollLoop source cfg 0 0).2 with
    | some job => Except.ok (flattenJob job)
    | none => Except.error (timeoutMessage jobId (jsNumOr cfg.timeout 600)))

/-! ### Cancel operation (lines 958-975) -/

/-- The record returned by the cancel operation. -/
structure CancelResult where
  success : Bool
  jobId : String

/-- Lines 958-975: `cancelJob` posts a cancel request; given that the
remote call succeeds, its response body (`remoteResponse`) is ignored
and `{ success: true, jobId }` is returned. -/
def cancelJob (jobId : String) (remoteResponse : Json) : List Event × CancelResult :=
  ([Event.cancelReq jobId], { success := true, jobId := jobId })

/-! ### Trace helpers and sample fixtures -/

/-- Whether an event is a status fetch. -/
def isFetch : Event → Bool
  | .fetch _ => true
  | _ => false

/-- Number of status fetches in a trace. -/
def countFetches (tr : List Event) : Nat :=
  tr.countP isFetch

/-- The expected poll trace when the job source, starting at fetch
index `k`, is non-terminal for `n` fetches and terminal on the next:
`fetch k, sleep i, fetch (k+1), …, sleep i, fetch (k+n)` — the first
fetch immediate, one sleep of exactly `i` before every later fetch, and
no trailing sleep. -/
def pollTraceFrom : Nat → Nat → Nat → List Event
  | k, 0, _ => [Event.fetch k]
  | k, n + 1, i => Event.fetch k :: Event.sleep i :: pollTraceFrom (k + 1) n i

/-- A sample non-terminal job record. -/
def pendingJob : Job :=
  { id := "run_7"
    status := "EXECUTING"
    taskIdentifier := "task_1"
    createdAt := "2026-01-01T00:00:00Z"
    updatedAt := "2026-01-01T00:00:01Z"
    startedAt := some "2026-01-01T00:00:01Z"
    finishedAt := none
    isCompleted := false
    isSuccess := false
    isFailed := false
    output := none
    error := none }

/-- A sample terminal job record with structured output. -/
def doneJob : Job :=
  { id := "run_7"
    status := "COMPLETED"
    taskIdentifier := "task_1"
    createdAt := "2026-01-01T00:00:00Z"
    updatedAt := "2026-01-01T00:00:05Z"
    startedAt := some "2026-01-01T00:00:01Z"
    finishedAt := some "2026-01-01T00:00:05Z"
    isCompleted := true
    isSuccess := true
    isFailed := false
    output := some
      { success := true
        text := some "done"
        result := some
          { subtype := SDKSubtype.success
            result := some "done"
            structured_output := some (Json.obj [("name", Json.str "x")])
            total_cost_usd := some 1
            usage := some { input_tokens := 10, output_tokens := 20 } }
        error := none }
    error := none }

/-- A job source that is non-terminal for the first two fetches and
terminal afterwards. -/
def sampleSource : Nat → Job :=
  fun k => if k < 2 then pendingJob else doneJob

/-- A job source that never reaches a terminal state. -/
def neverSource : Nat → Job :=
  fun _ => pendingJob

/-- Poll every second, give up after three seconds. -/
def samplePollCfg : PollConfig :=
  { pollingInterval := some 1, timeout := some 3 }

/-- Builder inputs with every optional field left unset. -/
def emptyParams : BuildParams :=
  { message := "do the thing"
    idempotencyKey := none
    model := none
    customModel := none
    systemPrompt := none
    maxTurns := none
    outputFormat := none
    tools := none
    allowedTools := none
    disallowedTools := none
    permissionMode := none
    ttl := none
    callbackUrl := none
    callbackSecret := none }

/-- A parse function that fails on every input, as `JSON.parse` does on
invalid JSON. -/
def jpFail : String → Option Json :=
  fun _ => none

/-- A parse function that accepts exactly the text
`["Read", "Write"]`, as `JSON.parse` does. -/
def jpTools : String → Option Json :=
  fun s =>
    if s = "[\"Read\", \"Write\"]" then
      some (Json.arr [Json.str "Read", Json.str "Write"])
    else none

/-- A parse function that accepts exactly the text
`{"type": "object"}`, as `JSON.parse` does. -/
def jpSchema : String → Option Json :=
  fun s =>
    if s = "\x7b\"type\": \"object\"\x7d" then
      some (Json.obj [("type", Json.str "object")])
    else none

/-- Sample random bytes. -/
def sampleBytes1 : RandBytes := (17, 34, 51, 68)

/-- Different sample random bytes. -/
def sampleBytes2 : RandBytes := (17, 34, 51, 69)

/-! ### Helper lemmas -/

/-- The applied poll interval is always at least one second. -/
theorem cfgIntervalMs_pos (cfg : PollConfig) : 0 < cfgIntervalMs cfg := by
  unfold cfgIntervalMs jsNumOr
  match cfg.pollingInterval with
  | none => decide
  | some n =>
    by_cases h : n = 0
    · simp [h]
    · simp only [if_neg h]
      omega

/-- Function `hexDigit` is injective on values below 16. -/
theorem hexDigit_inj : ∀ a < 16, ∀ b < 16, hexDigit a = hexDigit b → a = b := by
  decide

/-- Function `byteHex` is injective. -/
theorem byteHex_inj {a b : Fin 256} (h : byteHex a = byteHex b) : a = b := by
  unfold byteHex at h
  have h1 : hexDigit (a.val / 16) = hexDigit (b.val / 16) := by
    exact (List.cons.injEq _ _ _ _).mp h |>.1
  have h2 : hexDigit (a.val % 16) = hexDigit (b.val % 16) := by
    have := (List.cons.injEq _ _ _ _).mp h |>.2
    exact (List.cons.injEq _ _ _ _).mp this |>.1
  have ha := a.isLt
  have hb := b.isLt
  have e1 : a.val / 16 = b.val / 16 :=
    hexDigit_inj _ (by omega) _ (by omega) h1
  have e2 : a.val % 16 = b.val % 16 :=
    hexDigit_inj _ (by omega) _ (by omega) h2
  have : a.val = b.val := by omega
  exact Fin.ext this

/-- Function `bytesToHex` is injective: distinct random bytes give distinct hex
strings. -/
theorem bytesToHex_inj {r1 r2 : RandBytes} (h : bytesToHex r1 = bytesToHex r2) :
    r1 = r2 := by
  unfold bytesToHex at h
  injection h with h
  obtain ⟨a1, b1, c1, d1⟩ := r1
  obtain ⟨a2, b2, c2, d2⟩ := r2
  simp only [byteHex, List.cons_append, List.nil_append, List.cons.injEq,
    List.nil_eq, and_true] at h
  obtain ⟨ha1, ha2, hb1, hb2, hc1, hc2, hd1, hd2⟩ := h
  have ea : a1 = a2 := byteHex_inj (by simp [byteHex, ha1, ha2])
  have eb : b1 = b2 := byteHex_inj (by simp [byteHex, hb1, hb2])
  have ec : c1 = c2 := byteHex_inj (by simp [byteHex, hc1, hc2])
  have ed : d1 = d2 := byteHex_inj (by simp [byteHex, hd1, hd2])
  simp [ea, eb, ec, ed]

/-- Left cancellation for string append. -/
theorem string_append_cancel_left {a b c : String} (h : a ++ b = a ++ c) : b = c := by
  have hd : (a ++ b).data = (a ++ c).data := congrArg String.data h
  rw [String.data_append, String.data_append] at hd
  exact String.ext (List.append_cancel_left hd)

/-- The generated idempotency key is injective in the random bytes for a
fixed timestamp. -/
theorem genIdempotencyKey_inj (now : Nat) {r1 r2 : RandBytes}
    (h : genIdempotencyKey now r1 = genIdempotencyKey now r2) : r1 = r2 := by
  unfold genIdempotencyKey at h
  exact bytesToHex_inj (string_append_cancel_left h)

/-- The applied poll timeout is always at least one second. -/
theorem cfgTimeoutMs_pos (cfg : PollConfig) : 0 < cfgTimeoutMs cfg := by
  unfold cfgTimeoutMs jsNumOr
  cases cfg.timeout with
  | none => decide
  | some n =>
    by_cases hn : n = 0
    · simp [hn]
    · simp only [if_neg hn]
      omega

/-- One fetch of a non-completed job unfolds the loop into a fetch, a
sleep of exactly the poll interval, and the remaining loop. -/
theorem pollLoop_step (source : Nat → Job) (cfg : PollConfig) (k elapsed : Nat)
    (he : elapsed < cfgTimeoutMs cfg) (hk : (source k).isCompleted = false) :
    pollLoop source cfg k elapsed =
      (Event.fetch k :: Event.sleep (cfgIntervalMs cfg) ::
        (pollLoop source cfg (k + 1) (elapsed + cfgIntervalMs cfg)).1,
       (pollLoop source cfg (k + 1) (elapsed + cfgIntervalMs cfg)).2) := by
  rw [pollLoop]
  simp [he, hk]

/-- A fetch of a completed job ends the loop at once, with no further
sleep. -/
theorem pollLoop_done (source : Nat → Job) (cfg : PollConfig) (k elapsed : Nat)
    (he : elapsed < cfgTimeoutMs cfg) (hk : (source k).isCompleted = true) :
    pollLoop source cfg k elapsed = ([Event.fetch k], some (source k)) := by
  rw [pollLoop]
  simp [he, hk]

/-- Once the elapsed time reaches the timeout, the loop stops without
fetching. -/
theorem pollLoop_stop (source : Nat → Job) (cfg : PollConfig) (k elapsed : Nat)
    (he : ¬ elapsed < cfgTimeoutMs cfg) :
    pollLoop source cfg k elapsed = ([], none) := by
  rw [pollLoop]
  simp [he]

/-- Round-trip behaviour of the loop from an arbitrary fetch index:
`n` non-terminal fetches followed by a terminal one produce exactly the
expected trace and return the terminal record. -/
theorem pollLoop_roundtrip_aux (source : Nat → Job) (cfg : PollConfig) :
    ∀ (n k elapsed : Nat),
      (∀ j, j < n → (source (k + j)).isCompleted = false) →
      (source (k + n)).isCompleted = true →
      elapsed + n * cfgIntervalMs cfg < cfgTimeoutMs cfg →
      pollLoop source cfg k elapsed =
        (pollTraceFrom k n (cfgIntervalMs cfg), some (source (k + n))) := by
  intro n
  induction n with
  | zero =>
    intro k elapsed hpend hterm htime
    have he : elapsed < cfgTimeoutMs cfg := by omega
    rw [Nat.add_zero] at hterm
    rw [pollLoop_done source cfg k elapsed he hterm]
    simp [pollTraceFrom]
  | succ m ih =>
    intro k elapsed hpend hterm htime
    have he : elapsed < cfgTimeoutMs cfg := by
      have h0 : elapsed ≤ elapsed + (m + 1) * cfgIntervalMs cfg := Nat.le_add_right _ _
      omega
    have hk0 : (source k).isCompleted = false := by
      simpa using hpend 0 (Nat.succ_pos m)
    have hterm1 : (source (k + 1 + m)).isCompleted = true := by
      rw [show k + 1 + m = k + (m + 1) by omega]
      exact hterm
    have hpend1 : ∀ j, j < m → (source (k + 1 + j)).isCompleted = false := by
      intro j hj
      rw [show k + 1 + j = k + (j + 1) by omega]
      exact hpend (j + 1) (by omega)
    have htime1 : elapsed + cfgIntervalMs cfg + m * cfgIntervalMs cfg <
        cfgTimeoutMs cfg := by
      rw [Nat.succ_mul] at htime
      omega
    have hrec := ih (k + 1) (elapsed + cfgIntervalMs cfg) hpend1 hterm1 htime1
    rw [pollLoop_step source cfg k elapsed he hk0, hrec]
    simp [pollTraceFrom, show k + 1 + m = k + (m + 1) by omega]

/-- The number of fetches in the expected round-trip trace is one more
than the number of non-terminal polls. -/
theorem countFetches_pollTraceFrom :
    ∀ (n k i : Nat), countFetches (pollTraceFrom k n i) = n + 1 := by
  intro n
  induction n with
  | zero =>
    intro k i
    rfl
  | succ m ih =>
    intro k i
    simp only [pollTraceFrom, countFetches, List.countP_cons] at ih ⊢
    simp [isFetch, ih (k + 1) i]

/-- With a source that never completes, the loop ends with no result,
every fetch it issues starts strictly before the timeout, and it never
issues a cancel request. -/
theorem pollLoop_timeout_aux (source : Nat → Job) (cfg : PollConfig)
    (hnever : ∀ k, (source k).isCompleted = false) :
    ∀ (d k elapsed : Nat), cfgTimeoutMs cfg - elapsed ≤ d →
      (pollLoop source cfg k elapsed).2 = none ∧
      (∀ j, Event.fetch j ∈ (pollLoop source cfg k elapsed).1 →
        k ≤ j ∧ elapsed + (j - k) * cfgIntervalMs cfg < cfgTimeoutMs cfg) ∧
      (∀ i, Event.cancelReq i ∉ (pollLoop source cfg k elapsed).1) := by
  intro d
  induction d with
  | zero =>
    intro k elapsed hd
    have he : ¬ elapsed < cfgTimeoutMs cfg := by omega
    rw [pollLoop_stop source cfg k elapsed he]
    simp
  | succ m ih =>
    intro k elapsed hd
    by_cases he : elapsed < cfgTimeoutMs cfg
    · have hi := cfgIntervalMs_pos cfg
      have hd1 : cfgTimeoutMs cfg - (elapsed + cfgIntervalMs cfg) ≤ m := by omega
      have hrec := ih (k + 1) (elapsed + cfgIntervalMs cfg) hd1
      rw [pollLoop_step source cfg k elapsed he (hnever k)]
      refine ⟨hrec.1, ?_, ?_⟩
      · intro j hj
        rcases List.mem_cons.mp hj with h1 | h1
        · have hjk : j = k := by
            injection h1
          subst hjk
          exact ⟨Nat.le_refl j, by simpa using he⟩
        · rcases List.mem_cons.mp h1 with h2 | h2
          · simp at h2
          · have hr := hrec.2.1 j h2
            refine ⟨by omega, ?_⟩
            have hstep : (j - k) * cfgIntervalMs cfg =
                (j - (k + 1)) * cfgIntervalMs cfg + cfgIntervalMs cfg := by
              rw [show j - k = (j - (k + 1)) + 1 by omega, Nat.succ_mul]
            omega
      · intro i hmem
        rcases List.mem_cons.mp hmem with h1 | h1
        · simp at h1
        · rcases List.mem_cons.mp h1 with h2 | h2
          · simp at h2
          · exact hrec.2.2 i h2
    · rw [pollLoop_stop source cfg k elapsed he]
      simp

/-! ### Claims -/

/-- C1: when the job source is non-terminal for the first `n` fetches
and terminal on the next, all before the timeout, the wait phase
performs exactly `n + 1` fetches — the first immediately, each later
one after a sleep of exactly the poll interval — and on the terminal
fetch it stops at once (no trailing sleep) and returns the flattened
terminal record. -/
theorem createJob_poll_roundtrip (source : Nat → Job) (cfg : PollConfig)
    (jobId : String) (n : Nat)
    (hpend : ∀ j, j < n → (source j).isCompleted = false)
    (hterm : (source n).isCompleted = true)
    (htime : n * cfgIntervalMs cfg < cfgTimeoutMs cfg) :
    createJobWait source cfg jobId =
      (pollTraceFrom 0 n (cfgIntervalMs cfg), Except.ok (flattenJob (source n))) ∧
    countFetches (pollTraceFrom 0 n (cfgIntervalMs cfg)) = n + 1 := by
  have hpend0 : ∀ j, j < n → (source (0 + j)).isCompleted = false := by
    intro j hj
    rw [Nat.zero_add]
    exact hpend j hj
  have hterm0 : (source (0 + n)).isCompleted = true := by
    rw [Nat.zero_add]
    exact hterm
  have htime0 : 0 + n * cfgIntervalMs cfg < cfgTimeoutMs cfg := by omega
  have hloop := pollLoop_roundtrip_aux source cfg n 0 0 hpend0 hterm0 htime0
  constructor
  · simp only [createJobWait, hloop, Nat.zero_add]
  · exact countFetches_pollTraceFrom n 0 (cfgIntervalMs cfg)

/-- Witness for C1: with a 1-second interval and 3-second timeout and a
source that completes on the third fetch, the wait phase returns the
flattened terminal record after the expected trace. -/
theorem createJob_poll_roundtrip_witness :
    (∀ j, j < 2 → (sampleSource j).isCompleted = false) ∧
    (sampleSource 2).isCompleted = true ∧
    2 * cfgIntervalMs samplePollCfg < cfgTimeoutMs samplePollCfg ∧
    createJobWait sampleSource samplePollCfg "run_7" =
      (pollTraceFrom 0 2 (cfgIntervalMs samplePollCfg),
        Except.ok (flattenJob (sampleSource 2))) ∧
    countFetches (pollTraceFrom 0 2 (cfgIntervalMs samplePollCfg)) = 2 + 1 :=
  have h := createJob_poll_roundtrip sampleSource samplePollCfg "run_7" 2
    (by decide) (by decide) (by decide)
  ⟨by decide, by decide, by decide, h.1, h.2⟩

/-- C2: when the job source never reaches a terminal state, the wait
phase fails with the timeout error naming the job id and the configured
timeout in seconds, every fetch it issued started strictly before the
timeout elapsed (none afterwards), and it never issued a cancel
request for the remote job. -/
theorem createJob_poll_timeout (source : Nat → Job) (cfg : PollConfig)
    (jobId : String)
    (hnever : ∀ k, (source k).isCompleted = false) :
    (createJobWait source cfg jobId).2 =
      Except.error (timeoutMessage jobId (jsNumOr cfg.timeout 600)) ∧
    (∀ j, Event.fetch j ∈ (createJobWait source cfg jobId).1 →
      j * cfgIntervalMs cfg < cfgTimeoutMs cfg) ∧
    (∀ i, Event.cancelReq i ∉ (createJobWait source cfg jobId).1) := by
  have haux := pollLoop_timeout_aux source cfg hnever (cfgTimeoutMs cfg) 0 0 (by omega)
  refine ⟨?_, ?_, ?_⟩
  · simp only [createJobWait, haux.1]
  · intro j hj
    have hm : Event.fetch j ∈ (pollLoop source cfg 0 0).1 := hj
    have := haux.2.1 j hm
    rw [Nat.sub_zero] at this
    omega
  · intro i hmem
    exact haux.2.2 i hmem

/-- Witness for C2: a never-completing source with a 1-second interval
and 3-second timeout yields the timeout error, whose message names the
job id and the 3-second timeout. -/
theorem createJob_poll_timeout_witness :
    (∀ k, (neverSource k).isCompleted = false) ∧
    (createJobWait neverSource samplePollCfg "run_9").2 =
      Except.error (timeoutMessage "run_9" (jsNumOr samplePollCfg.timeout 600)) ∧
    timeoutMessage "run_9" (jsNumOr samplePollCfg.timeout 600) =
      "Job run_9 did not complete within 3 seconds" :=
  ⟨fun _ => rfl,
   (createJob_poll_timeout neverSource samplePollCfg "run_9" (fun _ => rfl)).1,
   by decide⟩

/-- C3: flattening a terminal job is total, and the flat record carries
`structuredOutput` exactly when `output.result.structured_output` is
defined — presence, not truthiness, gates inclusion, and the lifted
value is the defined value itself (so `0`, `false` or `{}` are kept). -/
theorem flattenJob_structuredOutput_iff_defined (job : Job) :
    (flattenJob job).structuredOutput =
      Option.bind (Option.bind job.output IncubateOutput.result)
        SDKResult.structured_output := by
  unfold flattenJob
  cases job.output with
  | none => rfl
  | some o =>
    cases ho : o.result with
    | none => simp [ho]
    | some sdk =>
      cases hs : sdk.structured_output with
      | none => simp [ho, hs]
      | some v => simp [ho, hs]

/-- C4: the `tools` string is parsed as JSON first; a successful parse
is used exactly, and a parse failure falls back to comma-splitting and
trimming the original string. -/
theorem buildBody_tools_parsing :
    (∀ (jp : String → Option Json) (p : BuildParams) (token : String)
        (now : Nat) (r : RandBytes) (s : String) (v : Json),
      p.tools = some s → s ≠ "" → jp s = some v →
      (buildBody jp p token now r).options.tools = some v) ∧
    (∀ (jp : String → Option Json) (p : BuildParams) (token : String)
        (now : Nat) (r : RandBytes) (s : String),
      p.tools = some s → s ≠ "" → jp s = none →
      (buildBody jp p token now r).options.tools =
        some (Json.arr ((splitTrim s).map Json.str))) := by
  constructor
  · intro jp p token now r s v hs hne hjp
    simp [buildBody, toolsField, hs, hne, hjp]
  · intro jp p token now r s hs hne hjp
    simp [buildBody, toolsField, hs, hne, hjp]

/-- Witness for C4: a JSON array of strings is decoded exactly, and a
plain comma list falls back to split-and-trim. -/
theorem buildBody_tools_parsing_witness :
    (buildBody jpTools { emptyParams with tools := some "[\"Read\", \"Write\"]" }
        "tok" 0 sampleBytes1).options.tools =
      some (Json.arr [Json.str "Read", Json.str "Write"]) ∧
    (buildBody jpFail { emptyParams with tools := some "Read, Write" }
        "tok" 0 sampleBytes1).options.tools =
      some (Json.arr ((splitTrim "Read, Write").map Json.str)) :=
  ⟨buildBody_tools_parsing.1 jpTools _ "tok" 0 sampleBytes1 _ _ rfl (by decide) rfl,
   buildBody_tools_parsing.2 jpFail _ "tok" 0 sampleBytes1 _ rfl (by decide) rfl⟩

/-- C5: an output-format string that fails to parse leaves the request
exactly as if no output format had been configured (no `outputFormat`
field, no failure), while an input that is, or decodes to, a non-empty
object yields `outputFormat = { type: "json_schema", schema: <object> }`. -/
theorem buildBody_outputFormat_leniency :
    (∀ (jp : String → Option Json) (p : BuildParams) (token : String)
        (now : Nat) (r : RandBytes) (s : String),
      p.outputFormat = some (Json.str s) → jp s = none →
      buildBody jp p token now r =
        buildBody jp { p with outputFormat := none } token now r) ∧
    (∀ (jp : String → Option Json) (p : BuildParams) (token : String)
        (now : Nat) (r : RandBytes) (fields : List (String × Json)),
      p.outputFormat = some (Json.obj fields) → fields ≠ [] →
      (buildBody jp p token now r).options.outputFormat =
        some (Json.obj [("type", Json.str "json_schema"), ("schema", Json.obj fields)])) ∧
    (∀ (jp : String → Option Json) (p : BuildParams) (token : String)
        (now : Nat) (r : RandBytes) (s : String) (fields : List (String × Json)),
      p.outputFormat = some (Json.str s) → s ≠ "" →
      jp s = some (Json.obj fields) → fields ≠ [] →
      (buildBody jp p token now r).options.outputFormat =
        some (Json.obj [("type", Json.str "json_schema"), ("schema", Json.obj fields)])) := by
  refine ⟨?_, ?_, ?_⟩
  · intro jp p token now r s hof hjp
    have hfield : outputFormatField jp (some (Json.str s)) = none := by
      by_cases hs : s = ""
      · simp [outputFormatField, parsedOutputFormat, jsTruthy, hs]
      · simp [outputFormatField, parsedOutputFormat, jsTruthy, hs, hjp]
    have hnone : outputFormatField jp none = none := rfl
    simp [buildBody, hof, hfield, hnone]
  · intro jp p token now r fields hof hne
    have hlen : 0 < fields.length := List.length_pos.mpr hne
    simp [buildBody, hof, outputFormatField, parsedOutputFormat, jsTruthy,
      jsTypeofObject, jsKeysLength, hlen]
  · intro jp p token now r s fields hof hs hjp hne
    have hlen : 0 < fields.length := List.length_pos.mpr hne
    simp [buildBody, hof, outputFormatField, parsedOutputFormat, jsTruthy,
      jsTypeofObject, jsKeysLength, hs, hjp, hlen]

/-- Witness for C5: invalid JSON behaves as an absent option; a JSON
schema text decoding to a non-empty object is wrapped. -/
theorem buildBody_outputFormat_leniency_witness :
    buildBody jpFail { emptyParams with outputFormat := some (Json.str "not json") }
        "tok" 0 sampleBytes1 =
      buildBody jpFail
        { { emptyParams with outputFormat := some (Json.str "not json") } with
            outputFormat := none } "tok" 0 sampleBytes1 ∧
    (buildBody jpSchema
        { emptyParams with outputFormat := some (Json.str "\x7b\"type\": \"object\"\x7d") }
        "tok" 0 sampleBytes1).options.outputFormat =
      some (Json.obj [("type", Json.str "json_schema"),
        ("schema", Json.obj [("type", Json.str "object")])]) :=
  ⟨buildBody_outputFormat_leniency.1 jpFail _ "tok" 0 sampleBytes1 "not json" rfl rfl,
   buildBody_outputFormat_leniency.2.2 jpSchema _ "tok" 0 sampleBytes1
     "\x7b\"type\": \"object\"\x7d" [("type", Json.str "object")] rfl (by decide) rfl
     (List.cons_ne_nil _ _)⟩

/-- C6: an incubate response with a truthy `error` or `message` field
fails the submission with that message (preferring `message`), and no
accepted-submission record (job id) is produced. -/
theorem incubate_error_response_fails (resp : IncubateResponse)
    (h : jsStrTruthy resp.error = true ∨ jsStrTruthy resp.message = true) :
    (∀ a, interpretIncubate resp ≠ Except.ok a) ∧
    (∀ s, resp.message = some s → s ≠ "" →
      interpretIncubate resp = Except.error s) ∧
    (jsStrTruthy resp.message = false →
      ∀ s, resp.error = some s → s ≠ "" →
        interpretIncubate resp = Except.error s) := by
  have hcond : (jsStrTruthy resp.error || jsStrTruthy resp.message) = true := by
    rcases h with h | h <;> simp [h]
  refine ⟨?_, ?_, ?_⟩
  · intro a hk
    simp [interpretIncubate, hcond] at hk
  · intro s hm hs
    have htr : jsStrTruthy (some s) = true := by simp [jsStrTruthy, hs]
    simp [interpretIncubate, jsStrOr, hm, htr, hs]
  · intro hmf s he hs
    have htr : jsStrTruthy (some s) = true := by simp [jsStrTruthy, hs]
    cases hm : resp.message with
    | none => simp [interpretIncubate, jsStrOr, he, hm, htr, hs]
    | some t =>
      have ht : t = "" := by
        rw [hm] at hmf
        simpa [jsStrTruthy] using hmf
      simp [interpretIncubate, jsStrOr, he, hm, ht, htr, hs]

/-- Witness for C6: a response with `message = "boom"` fails with
`"boom"` and yields no accepted submission. -/
theorem incubate_error_response_fails_witness :
    (∀ a, interpretIncubate
      { vesselId := "run_7", idempotencyKey := "k", status := "PENDING",
        scheduledFor := none, error := none, message := some "boom" } ≠ Except.ok a) ∧
    interpretIncubate
      { vesselId := "run_7", idempotencyKey := "k", status := "PENDING",
        scheduledFor := none, error := none, message := some "boom" } =
      Except.error "boom" :=
  have h := incubate_error_response_fails
    { vesselId := "run_7", idempotencyKey := "k", status := "PENDING",
      scheduledFor := none, error := none, message := some "boom" }
    (Or.inr (by decide))
  ⟨h.1, h.2.1 "boom" rfl (by decide)⟩

/-- C7: a supplied non-empty idempotency key is used verbatim; an
unsupplied key is generated as prefix + current milliseconds + random
hex, and two keys generated in the same millisecond from distinct
random bytes differ. -/
theorem idempotency_key_correct :
    (∀ (jp : String → Option Json) (p : BuildParams) (token : String)
        (now : Nat) (r : RandBytes) (s : String),
      p.idempotencyKey = some s → s ≠ "" →
      (buildBody jp p token now r).idempotencyKey = s) ∧
    (∀ (jp : String → Option Json) (p : BuildParams) (token : String)
        (now : Nat) (r : RandBytes),
      p.idempotencyKey = none →
      (buildBody jp p token now r).idempotencyKey =
        "n8n-" ++ toString now ++ "-" ++ bytesToHex r) ∧
    (∀ (now : Nat) (r1 r2 : RandBytes), r1 ≠ r2 →
      genIdempotencyKey now r1 ≠ genIdempotencyKey now r2) := by
  refine ⟨?_, ?_, ?_⟩
  · intro jp p token now r s hk hs
    simp [buildBody, chooseIdempotencyKey, hk, hs]
  · intro jp p token now r hk
    simp [buildBody, chooseIdempotencyKey, genIdempotencyKey, hk]
  · intro now r1 r2 hne heq
    exact hne (genIdempotencyKey_inj now heq)

/-- Witness for C7: a caller key passes through verbatim; two generated
keys in one millisecond with distinct bytes differ. -/
theorem idempotency_key_correct_witness :
    (buildBody jpFail { emptyParams with idempotencyKey := some "my-key" }
        "tok" 0 sampleBytes1).idempotencyKey = "my-key" ∧
    (buildBody jpFail emptyParams "tok" 1700000000000 sampleBytes1).idempotencyKey =
      "n8n-" ++ toString 1700000000000 ++ "-" ++ bytesToHex sampleBytes1 ∧
    genIdempotencyKey 1700000000000 sampleBytes1 ≠
      genIdempotencyKey 1700000000000 sampleBytes2 :=
  ⟨idempotency_key_correct.1 jpFail _ "tok" 0 sampleBytes1 "my-key" rfl (by decide),
   idempotency_key_correct.2.1 jpFail emptyParams "tok" 1700000000000 sampleBytes1 rfl,
   idempotency_key_correct.2.2 1700000000000 sampleBytes1 sampleBytes2 (by decide)⟩

/-- C8: `maxTurns` and `ttl` are sent only when truthy — zero and unset
are treated identically (omitted) — and `ttl` additionally requires a
strictly positive value. -/
theorem optional_numeric_fields_truthy :
    (∀ (jp : String → Option Json) (p : BuildParams) (token : String)
        (now : Nat) (r : RandBytes),
      ((buildBody jp p token now r).options.maxTurns ≠ none ↔
        ∃ n, p.maxTurns = some n ∧ n ≠ 0)) ∧
    (∀ (jp : String → Option Json) (p : BuildParams) (token : String)
        (now : Nat) (r : RandBytes) (n : Int),
      p.maxTurns = some n → n ≠ 0 →
      (buildBody jp p token now r).options.maxTurns = some n) ∧
    (∀ (jp : String → Option Json) (p : BuildParams) (token : String)
        (now : Nat) (r : RandBytes),
      buildBody jp { p with maxTurns := some 0, ttl := some 0 } token now r =
        buildBody jp { p with maxTurns := none, ttl := none } token now r) ∧
    (∀ (jp : String → Option Json) (p : BuildParams) (token : String)
        (now : Nat) (r : RandBytes),
      ((buildBody jp p token now r).ttl ≠ none ↔ ∃ n, p.ttl = some n ∧ 0 < n)) ∧
    (∀ (jp : String → Option Json) (p : BuildParams) (token : String)
        (now : Nat) (r : RandBytes) (n : Int),
      p.ttl = some n → 0 < n →
      (buildBody jp p token now r).ttl = some n) := by
  refine ⟨?_, ?_, ?_, ?_, ?_⟩
  · intro jp p token now r
    cases hm : p.maxTurns with
    | none => simp [buildBody, maxTurnsField, hm]
    | some n =>
      by_cases hn : n = 0
      · simp [buildBody, maxTurnsField, hm, hn]
      · simp [buildBody, maxTurnsField, hm, hn]
  · intro jp p token now r n hm hn
    simp [buildBody, maxTurnsField, hm, hn]
  · intro jp p token now r
    simp [buildBody, maxTurnsField, ttlField]
  · intro jp p token now r
    cases ht : p.ttl with
    | none => simp [buildBody, ttlField, ht]
    | some n =>
      by_cases hn : 0 < n
      · have hn0 : ¬ n = 0 := by omega
        simp [buildBody, ttlField, ht, hn, hn0]
      · by_cases hn0 : n = 0
        · simp [buildBody, ttlField, ht, hn, hn0]
        · simp [buildBody, ttlField, ht, hn, hn0]
  · intro jp p token now r n ht hn
    have hn0 : ¬ n = 0 := by omega
    simp [buildBody, ttlField, ht, hn, hn0]

/-- Witness for C8: `maxTurns = 3` and `ttl = 60` are sent, while zero
values behave exactly like unset ones. -/
theorem optional_numeric_fields_truthy_witness :
    (buildBody jpFail { emptyParams with maxTurns := some 3 }
        "tok" 0 sampleBytes1).options.maxTurns = some 3 ∧
    buildBody jpFail { emptyParams with maxTurns := some 0, ttl := some 0 }
        "tok" 0 sampleBytes1 =
      buildBody jpFail { emptyParams with maxTurns := none, ttl := none }
        "tok" 0 sampleBytes1 ∧
    (buildBody jpFail { emptyParams with ttl := some 60 }
        "tok" 0 sampleBytes1).ttl = some 60 :=
  ⟨optional_numeric_fields_truthy.2.1 jpFail _ "tok" 0 sampleBytes1 3 rfl (by decide),
   optional_numeric_fields_truthy.2.2.1 jpFail emptyParams "tok" 0 sampleBytes1,
   optional_numeric_fields_truthy.2.2.2.2 jpFail _ "tok" 0 sampleBytes1 60 rfl (by decide)⟩

/-- C9: given that the remote cancel call succeeds, the cancel
operation returns exactly `{ success: true, jobId: <the supplied id> }`,
whatever the remote response body contains. -/
theorem cancelJob_returns_success (jobId : String) (resp : Json) :
    cancelJob jobId resp =
      ([Event.cancelReq jobId], { success := true, jobId := jobId }) := rfl

/-- C10: a configured polling interval of 0, or timeout of 0, is
indistinguishable from leaving the option unset: the `||`-applied
defaults give a 5-second interval and 600-second timeout in both cases,
and no configuration yields a zero interval or timeout. -/
theorem zero_polling_config_uses_defaults :
    (∀ t, cfgIntervalMs { pollingInterval := some 0, timeout := t } = 5 * 1000 ∧
      cfgIntervalMs { pollingInterval := none, timeout := t } = 5 * 1000) ∧
    (∀ i, cfgTimeoutMs { pollingInterval := i, timeout := some 0 } = 600 * 1000 ∧
      cfgTimeoutMs { pollingInterval := i, timeout := none } = 600 * 1000) ∧
    (∀ cfg : PollConfig, 0 < cfgIntervalMs cfg ∧ 0 < cfgTimeoutMs cfg) := by
  refine ⟨?_, ?_, ?_⟩
  · intro t
    constructor <;> rfl
  · intro i
    constructor <;> rfl
  · intro cfg
    exact ⟨cfgIntervalMs_pos cfg, cfgTimeoutMs_pos cfg⟩

end Chucky
